import Mathlib

/-!
# Vendor-qualification engine: shallow embedding and verification

This file embeds the rules/registry engine of the vendor-qualification
frontend (App.tsx, the VerifyQualification / CheckCompliance /
VendorRegistry components, and services/ContractService.ts) and proves
the spec's testable properties against it.

Conventions of the embedding:
* JavaScript numbers that the code feeds through `parseInt` are modelled
  as `Int` (the spec calls vendor ids non-negative, but the code accepts
  any parsed integer, so we quantify over all of `Int`).
* The registry `Set<number>` of App.tsx is a `Finset Int`.
* A field that is `null` / absent in a response object is `none`.
* `new Date().toISOString()` is modelled by passing the timestamp string
  in as an argument (the clock is the engine's only dependency).
* JavaScript `try`/`catch` around the awaited contract call is modelled
  with `Except String`: `Except.error m` is a thrown exception whose
  message is `m`.
-/

/-- The registry of qualified vendor ids: `vendorsRegistry : Set<number>`
in App.tsx, created as `new Set()`. -/
abbrev Registry := Finset Int

/-- App.tsx `addQualifiedVendor`: inserts the id into the registry
(`new Set([...Array.from(prev), vendorId])`). -/
def addQualifiedVendor (r : Registry) (vendorId : Int) : Registry :=
  insert vendorId r

/-- App.tsx `isQualified`: `vendorsRegistry.has(vendorId)`. -/
def isQualified (r : Registry) (vendorId : Int) : Bool :=
  decide (vendorId ∈ r)

/-- The `contractCall` detail object that the simulated components attach
to their responses.  Fields that only some operations set are `Option`s. -/
structure ContractCallDetail where
  circuit : String
  input : String
  output : String
  ledgerUpdate : Option String
  status : Option String
  deriving DecidableEq

/-- The response envelope the simulated components build and hand to
`setResult` / `onDebugUpdate`.  The echoed `params` object is omitted from
the embedding; `result : null` and a missing `result` field are both
`none`. -/
structure Response where
  method : String
  result : Option Bool
  contractCall : Option ContractCallDetail
  error : Option String
  timestamp : String
  deriving DecidableEq

namespace VerifyQualification

/-- `VerifyQualification.handleVerify` (success path): computes
`qualifies = scoreNum >= thresholdNum` and builds the response envelope.
The salt is echoed into `contractCall.input` but never used in the
computation. -/
def handleVerify (vendorScore minimumThreshold salt : Int) (ts : String) : Response :=
  let qualifies := decide (vendorScore ≥ minimumThreshold)
  { method := "verifyQualification"
    result := some qualifies
    contractCall := some
      { circuit := "verifyQualification"
        input := "[" ++ toString vendorScore ++ ", " ++ toString minimumThreshold
          ++ ", " ++ toString salt ++ "]"
        output := "[" ++ toString qualifies ++ "]"
        ledgerUpdate := none
        status := none }
    error := none
    timestamp := ts }

end VerifyQualification

namespace CheckCompliance

/-- `CheckCompliance.handleCheck` (success path): computes
`compliant = certification && insurance && paymentHistory`. -/
def handleCheck (certification insurance paymentHistory : Bool) (ts : String) : Response :=
  let compliant := certification && insurance && paymentHistory
  { method := "checkCompliance"
    result := some compliant
    contractCall := some
      { circuit := "checkCompliance"
        input := "[" ++ toString certification ++ ", " ++ toString insurance
          ++ ", " ++ toString paymentHistory ++ "]"
        output := "[" ++ toString compliant ++ "]"
        ledgerUpdate := none
        status := none }
    error := none
    timestamp := ts }

end CheckCompliance

namespace VendorRegistry

/-- `VendorRegistry.handleRecord` (success path): calls the
`onQualificationRecord` callback, which is App.tsx `addQualifiedVendor`,
and builds the response envelope.  The source sets `result: null`,
modelled as `none`. -/
def handleRecord (r : Registry) (vendorNum : Int) (ts : String) : Registry × Response :=
  (addQualifiedVendor r vendorNum,
    { method := "recordQualification"
      result := none
      contractCall := some
        { circuit := "recordQualification"
          input := "[" ++ toString vendorNum ++ "]"
          output := "Vendor marked as qualified in ledger"
          ledgerUpdate := some ("vendors.markQualified(" ++ toString vendorNum ++ ")")
          status := none }
      error := none
      timestamp := ts })

/-- `VendorRegistry.handleCheck` (success path): calls the `onStatusCheck`
callback, which is App.tsx `isQualified`, and builds the response envelope.
Note the status label in this component is the string with a space,
`NOT QUALIFIED`. -/
def handleCheck (r : Registry) (vendorNum : Int) (ts : String) : Response :=
  let q := isQualified r vendorNum
  { method := "isVendorQualified"
    result := some q
    contractCall := some
      { circuit := "isVendorQualified"
        input := "[" ++ toString vendorNum ++ "]"
        output := "[" ++ toString q ++ "]"
        ledgerUpdate := none
        status := some (if q then "QUALIFIED" else "NOT QUALIFIED") }
    error := none
    timestamp := ts }

end VendorRegistry

/-- One user-triggered call of the simulated engine: the four circuits. -/
inductive Op where
  | verify (score threshold salt : Int)
  | compliance (a b c : Bool)
  | record (vendorId : Int)
  | check (vendorId : Int)
  deriving DecidableEq

/-- The engine transition: which handler runs and how the registry held in
App.tsx changes.  Only `handleRecord` touches the registry (through the
`onQualificationRecord` callback); the other three handlers never call
`setVendorsRegistry`. -/
def step (op : Op) (r : Registry) (ts : String) : Registry × Response :=
  match op with
  | .verify s t x => (r, VerifyQualification.handleVerify s t x ts)
  | .compliance a b c => (r, CheckCompliance.handleCheck a b c ts)
  | .record v => VendorRegistry.handleRecord r v ts
  | .check v => (r, VendorRegistry.handleCheck r v ts)

/-- The registry after a sequence of calls (responses discarded; the
registry component of `step` does not depend on the timestamp). -/
def runOps (r : Registry) (ops : List Op) : Registry :=
  ops.foldl (fun acc op => (step op acc "").1) r

/-- The `method` string of each operation's envelope. -/
def opMethod : Op → String
  | .verify .. => "verifyQualification"
  | .compliance .. => "checkCompliance"
  | .record .. => "recordQualification"
  | .check .. => "isVendorQualified"

/-- Whether an operation is the record (registry-mutating) operation. -/
def Op.isRecordOp : Op → Bool
  | .record _ => true
  | _ => false

/-- `CONTRACT_CONFIG.ADDRESS` in services/ContractService.ts. -/
def CONTRACT_CONFIG_ADDRESS : String :=
  "2aa78f99159e7662a1fe3658f402ef4e64ff77c8769cb07368ac1702696301f8"

/-- A bound Midnight contract instance: each circuit either yields its
boolean payload or throws (the `any`-typed results are modelled by their
boolean payload, the non-array branch of `Array.isArray(result)`). -/
structure ContractInstance where
  verifyQualification : Int → Int → Int → Except String Bool
  checkCompliance : Bool → Bool → Bool → Except String Bool
  recordQualification : Int → Except String Bool
  isVendorQualified : Int → Except String Bool

/-- The state of a `VendorQualificationService` object: the address given
to the constructor and the `contractInstance` field, `null` until
`bindContractInstance` is called. -/
structure VendorQualificationService where
  contractAddress : String
  contractInstance : Option ContractInstance

/-- The envelope shape returned by the service methods.  The echoed
`params`, the `contractCall` detail, `transactionHash` and `gasUsed` are
omitted from the embedding; no claim concerns them on this path. -/
structure SCResponse where
  method : String
  result : Option Bool
  error : Option String
  timestamp : String
  contractAddress : String
  deriving DecidableEq

namespace VendorQualificationService

/-- `bindContractInstance`: attaches an instantiated contract. -/
def bindContractInstance (s : VendorQualificationService) (instance_ : ContractInstance) :
    VendorQualificationService :=
  { s with contractInstance := some instance_ }

/-- `getContractOrThrow`: throws when no contract instance is attached. -/
def getContractOrThrow (s : VendorQualificationService) : Except String ContractInstance :=
  match s.contractInstance with
  | none => Except.error
      "Contract instance not attached. Call bindContractInstance() with a real Midnight contract."
  | some c => Except.ok c

/-- The body of the `try` block of `verifyQualification`:
`getContractOrThrow` followed by the awaited contract call; either step
may throw. -/
def verifyQualificationAttempt (s : VendorQualificationService)
    (vendorScore minimumThreshold salt : Int) : Except String Bool :=
  (getContractOrThrow s).bind fun c =>
    c.verifyQualification vendorScore minimumThreshold salt

/-- `VendorQualificationService.verifyQualification`: success envelope
from the try block, error envelope from the catch block. -/
def verifyQualification (s : VendorQualificationService)
    (vendorScore minimumThreshold salt : Int) (ts : String) : SCResponse :=
  match verifyQualificationAttempt s vendorScore minimumThreshold salt with
  | Except.ok b =>
      { method := "verifyQualification", result := some b, error := none,
        timestamp := ts, contractAddress := s.contractAddress }
  | Except.error m =>
      { method := "verifyQualification", result := none, error := some m,
        timestamp := ts, contractAddress := s.contractAddress }

/-- The body of the `try` block of `checkCompliance`. -/
def checkComplianceAttempt (s : VendorQualificationService)
    (certificationValid insuranceActive paymentHistoryGood : Bool) : Except String Bool :=
  (getContractOrThrow s).bind fun c =>
    c.checkCompliance certificationValid insuranceActive paymentHistoryGood

/-- `VendorQualificationService.checkCompliance`. -/
def checkCompliance (s : VendorQualificationService)
    (certificationValid insuranceActive paymentHistoryGood : Bool) (ts : String) : SCResponse :=
  match checkComplianceAttempt s certificationValid insuranceActive paymentHistoryGood with
  | Except.ok b =>
      { method := "checkCompliance", result := some b, error := none,
        timestamp := ts, contractAddress := s.contractAddress }
  | Except.error m =>
      { method := "checkCompliance", result := none, error := some m,
        timestamp := ts, contractAddress := s.contractAddress }

/-- The body of the `try` block of `recordQualification`. -/
def recordQualificationAttempt (s : VendorQualificationService)
    (vendorId : Int) : Except String Bool :=
  (getContractOrThrow s).bind fun c => c.recordQualification vendorId

/-- `VendorQualificationService.recordQualification`: the success envelope
sets no `result` field at all (no boolean payload). -/
def recordQualification (s : VendorQualificationService)
    (vendorId : Int) (ts : String) : SCResponse :=
  match recordQualificationAttempt s vendorId with
  | Except.ok _ =>
      { method := "recordQualification", result := none, error := none,
        timestamp := ts, contractAddress := s.contractAddress }
  | Except.error m =>
      { method := "recordQualification", result := none, error := some m,
        timestamp := ts, contractAddress := s.contractAddress }

/-- The body of the `try` block of `isVendorQualified`. -/
def isVendorQualifiedAttempt (s : VendorQualificationService)
    (vendorId : Int) : Except String Bool :=
  (getContractOrThrow s).bind fun c => c.isVendorQualified vendorId

/-- `VendorQualificationService.isVendorQualified`. -/
def isVendorQualified (s : VendorQualificationService)
    (vendorId : Int) (ts : String) : SCResponse :=
  match isVendorQualifiedAttempt s vendorId with
  | Except.ok b =>
      { method := "isVendorQualified", result := some b, error := none,
        timestamp := ts, contractAddress := s.contractAddress }
  | Except.error m =>
      { method := "isVendorQualified", result := none, error := some m,
        timestamp := ts, contractAddress := s.contractAddress }

end VendorQualificationService

/-- The exported singleton:
`new VendorQualificationService(CONTRACT_CONFIG.ADDRESS)`, with
`contractInstance` still `null`. -/
def contractService : VendorQualificationService :=
  { contractAddress := CONTRACT_CONFIG_ADDRESS, contractInstance := none }

/-- Folding `addQualifiedVendor` over a list of ids unions the list's
elements into the registry. -/
theorem foldl_addQualifiedVendor_eq_union (l : List Int) :
    ∀ r : Registry, l.foldl addQualifiedVendor r = r ∪ l.toFinset := by
  induction l with
  | nil => intro r; simp
  | cons a l ih =>
    intro r
    simp [List.foldl_cons, ih, addQualifiedVendor, Finset.insert_union, Finset.union_insert]

/-- Registry membership after a run: an id is present iff it was present
initially or some `record` call in the run inserted it. -/
theorem mem_runOps (ops : List Op) :
    ∀ (r : Registry) (v : Int), v ∈ runOps r ops ↔ v ∈ r ∨ Op.record v ∈ ops := by
  induction ops with
  | nil => intro r v; simp [runOps]
  | cons op ops ih =>
    intro r v
    have h1 : runOps r (op :: ops) = runOps (step op r "").1 ops := rfl
    rw [h1, ih]
    cases op <;>
      simp [step, VendorRegistry.handleRecord, addQualifiedVendor, Finset.mem_insert]
    all_goals tauto

/-- Claim C1: for all integer scores, thresholds and salts, the
threshold-evaluation operation returns exactly the boolean
`score >= threshold`, and the salt has no effect on the returned
boolean. -/
theorem C1_verifyThreshold_correct : ∀ (s t x y : Int) (ts : String),
    (VerifyQualification.handleVerify s t x ts).result = some (decide (s ≥ t))
    ∧ (VerifyQualification.handleVerify s t x ts).result
        = (VerifyQualification.handleVerify s t y ts).result := by
  intros
  exact ⟨rfl, rfl⟩

/-- Claim C2: for every boolean triple, the compliance-check operation
returns exactly the logical AND of the three flags. -/
theorem C2_checkCompliance_correct : ∀ (a b c : Bool) (ts : String),
    (CheckCompliance.handleCheck a b c ts).result = some (a && b && c) := by
  intros
  rfl

/-- Claim C3: recording is idempotent on the registry; from an empty
registry, N pairwise-distinct record calls give size N, and N calls with
one id (N ≥ 1) give size exactly 1. -/
theorem C3_recordQualification_idempotent :
    (∀ (r : Registry) (v : Int),
        addQualifiedVendor (addQualifiedVendor r v) v = addQualifiedVendor r v)
    ∧ (∀ l : List Int, l.Nodup → (l.foldl addQualifiedVendor ∅).card = l.length)
    ∧ (∀ (n : ℕ) (v : Int),
        ((List.replicate (n + 1) v).foldl addQualifiedVendor ∅).card = 1) := by
  refine ⟨fun r v => ?_, fun l h => ?_, fun n v => ?_⟩
  · simp [addQualifiedVendor, Finset.insert_idem]
  · rw [foldl_addQualifiedVendor_eq_union]
    simp [List.toFinset_card_of_nodup h]
  · rw [foldl_addQualifiedVendor_eq_union]
    simp [List.toFinset_replicate_of_ne_zero]

/-- Witness for C3 at a concrete nodup list of ids. -/
theorem C3_witness :
    (([3, 7, 9] : List Int).foldl addQualifiedVendor ∅).card = 3 :=
  C3_recordQualification_idempotent.2.1 [3, 7, 9] (by decide)

/-- Claim C4: lookup is total and matches the record history — false in
any state reached from the empty registry without a `record v` call
(including negative ids, with no error), and true immediately after
`record v` and after any further calls. -/
theorem C4_roundtrip_total_lookup : ∀ (v : Int) (ops ops2 : List Op)
    (r : Registry) (ts : String),
    (Op.record v ∉ ops → isQualified (runOps ∅ ops) v = false)
    ∧ (VendorRegistry.handleCheck (runOps ∅ ops) v ts).error = none
    ∧ isQualified (runOps (addQualifiedVendor r v) ops2) v = true := by
  intro v ops ops2 r ts
  refine ⟨fun h => ?_, rfl, ?_⟩
  · simp only [isQualified, decide_eq_false_iff_not, mem_runOps]
    simp [h]
  · simp only [isQualified, decide_eq_true_eq, mem_runOps]
    exact Or.inl (Finset.mem_insert_self v r)

/-- Witness for C4: a negative never-recorded id reads false after an
unrelated record, and true after its own record plus further calls. -/
theorem C4_witness :
    isQualified (runOps ∅ [Op.record 3, Op.verify 85 80 12345]) (-5) = false
    ∧ isQualified (runOps (addQualifiedVendor ∅ (-5)) [Op.record 3]) (-5) = true :=
  ⟨(C4_roundtrip_total_lookup (-5) [Op.record 3, Op.verify 85 80 12345]
      [Op.record 3] ∅ "T").1 (by decide),
   (C4_roundtrip_total_lookup (-5) [Op.record 3, Op.verify 85 80 12345]
      [Op.record 3] ∅ "T").2.2⟩

/-- Claim C5: recording is the only operation that changes the registry;
the other three leave it exactly unchanged. -/
theorem C5_only_record_mutates : ∀ (r : Registry) (ts : String)
    (s t x : Int) (a b c : Bool) (v w : Int),
    (step (Op.verify s t x) r ts).1 = r
    ∧ (step (Op.compliance a b c) r ts).1 = r
    ∧ (step (Op.check v) r ts).1 = r
    ∧ (step (Op.record w) r ts).1 = addQualifiedVendor r w := by
  intros
  exact ⟨rfl, rfl, rfl, rfl⟩

/-- Claim C6 (counterexample): the record envelope does not report the
updated registry size — recording id 999 into the empty registry and into
a three-element registry yields identical envelopes although the updated
sizes differ (1 versus 4). -/
theorem C6_counterexample :
    (step (Op.record 999) ∅ "2026-02-14T10:02:32.337Z").2
      = (step (Op.record 999) ({0, 1, 2} : Registry) "2026-02-14T10:02:32.337Z").2
    ∧ (step (Op.record 999) ∅ "2026-02-14T10:02:32.337Z").1.card
      ≠ (step (Op.record 999) ({0, 1, 2} : Registry) "2026-02-14T10:02:32.337Z").1.card := by
  exact ⟨rfl, by decide⟩

/-- Claim C6 (amended): the record envelope carries no boolean result
payload and its detail carries the synthetic ledger-update description
`vendors.markQualified(v)`; it is independent of the registry state and in
particular reports no registry size. -/
theorem C6_record_envelope : ∀ (v : Int) (r r2 : Registry) (ts : String),
    (step (Op.record v) r ts).2.result = none
    ∧ (step (Op.record v) r ts).2.contractCall = some
        { circuit := "recordQualification"
          input := "[" ++ toString v ++ "]"
          output := "Vendor marked as qualified in ledger"
          ledgerUpdate := some ("vendors.markQualified(" ++ toString v ++ ")")
          status := none }
    ∧ (step (Op.record v) r ts).2 = (step (Op.record v) r2 ts).2 := by
  intros
  exact ⟨rfl, rfl, rfl⟩

/-- Claim C7 (counterexample): for the unrecorded id 123 the lookup
envelope's status label is the string with a space, `NOT QUALIFIED`, which
differs from the claimed `NOT_QUALIFIED`. -/
theorem C7_counterexample :
    isQualified (∅ : Registry) 123 = false
    ∧ (VendorRegistry.handleCheck ∅ 123 "2026-02-14T10:02:32.337Z").contractCall = some
        { circuit := "isVendorQualified"
          input := "[123]"
          output := "[false]"
          ledgerUpdate := none
          status := some "NOT QUALIFIED" }
    ∧ ("NOT QUALIFIED" : String) ≠ "NOT_QUALIFIED" := by
  refine ⟨rfl, by decide, by decide⟩

/-- Claim C7 (amended): the lookup envelope exposes the boolean membership
result and a status label equal to `QUALIFIED` when the id is in the
registry and `NOT QUALIFIED` (space-separated) otherwise, and depends on
nothing of the registry beyond that membership bit. -/
theorem C7_status_envelope : ∀ (r r2 : Registry) (v : Int) (ts : String),
    (VendorRegistry.handleCheck r v ts).result = some (isQualified r v)
    ∧ (VendorRegistry.handleCheck r v ts).contractCall = some
        { circuit := "isVendorQualified"
          input := "[" ++ toString v ++ "]"
          output := "[" ++ toString (isQualified r v) ++ "]"
          ledgerUpdate := none
          status := some (if isQualified r v then "QUALIFIED" else "NOT QUALIFIED") }
    ∧ (isQualified r2 v = isQualified r v →
        VendorRegistry.handleCheck r2 v ts = VendorRegistry.handleCheck r v ts) := by
  intro r r2 v ts
  refine ⟨rfl, rfl, fun h => ?_⟩
  simp [VendorRegistry.handleCheck, h]

/-- Witness for C7: two registries agreeing on id 7 yield the same lookup
envelope. -/
theorem C7_witness :
    VendorRegistry.handleCheck ({3, 4} : Registry) 7 "T"
      = VendorRegistry.handleCheck ({3} : Registry) 7 "T" :=
  (C7_status_envelope {3} {3, 4} 7 "T").2.2 (by decide)

/-- Claim C8: every operation's envelope carries the operation's method
name and the call's timestamp; at most one of `result` / `error` is
populated, and both are absent exactly for the record operation (the
simulated handlers never set `error`; the service methods set `result`
iff no exception was caught, except `recordQualification`, which never
sets `result`). -/
theorem C8_envelope_shape : ∀ (op : Op) (r : Registry) (ts : String)
    (s : VendorQualificationService) (score threshold salt v : Int) (a b c : Bool),
    ((step op r ts).2.method = opMethod op
      ∧ (step op r ts).2.timestamp = ts
      ∧ (step op r ts).2.error = none
      ∧ ((step op r ts).2.result = none ↔ Op.isRecordOp op = true))
    ∧ ((VendorQualificationService.verifyQualification s score threshold salt ts).method
          = "verifyQualification"
      ∧ (VendorQualificationService.verifyQualification s score threshold salt ts).timestamp
          = ts
      ∧ ((VendorQualificationService.verifyQualification s score threshold salt ts).result
            = none
          ↔ (VendorQualificationService.verifyQualification s score threshold salt ts).error
            ≠ none))
    ∧ ((VendorQualificationService.checkCompliance s a b c ts).method = "checkCompliance"
      ∧ (VendorQualificationService.checkCompliance s a b c ts).timestamp = ts
      ∧ ((VendorQualificationService.checkCompliance s a b c ts).result = none
          ↔ (VendorQualificationService.checkCompliance s a b c ts).error ≠ none))
    ∧ ((VendorQualificationService.recordQualification s v ts).method
          = "recordQualification"
      ∧ (VendorQualificationService.recordQualification s v ts).timestamp = ts
      ∧ (VendorQualificationService.recordQualification s v ts).result = none)
    ∧ ((VendorQualificationService.isVendorQualified s v ts).method = "isVendorQualified"
      ∧ (VendorQualificationService.isVendorQualified s v ts).timestamp = ts
      ∧ ((VendorQualificationService.isVendorQualified s v ts).result = none
          ↔ (VendorQualificationService.isVendorQualified s v ts).error ≠ none)) := by
  intro op r ts s score threshold salt v a b c
  refine ⟨?_, ?_, ?_, ?_, ?_⟩
  · cases op <;>
      simp [step, opMethod, Op.isRecordOp, VerifyQualification.handleVerify,
        CheckCompliance.handleCheck, VendorRegistry.handleRecord, VendorRegistry.handleCheck]
  · rcases h : VendorQualificationService.verifyQualificationAttempt s score threshold salt <;>
      simp [VendorQualificationService.verifyQualification, h]
  · rcases h : VendorQualificationService.checkComplianceAttempt s a b c <;>
      simp [VendorQualificationService.checkCompliance, h]
  · rcases h : VendorQualificationService.recordQualificationAttempt s v <;>
      simp [VendorQualificationService.recordQualification, h]
  · rcases h : VendorQualificationService.isVendorQualifiedAttempt s v <;>
      simp [VendorQualificationService.isVendorQualified, h]

/-- Witness for C8 at the record operation on the empty registry. -/
theorem C8_witness :
    (step (Op.record 7) ∅ "T").2.timestamp = "T"
    ∧ (step (Op.record 7) ∅ "T").2.result = none :=
  ⟨(C8_envelope_shape (Op.record 7) ∅ "T" contractService 0 0 0 0 true true true).1.2.1,
   ((C8_envelope_shape (Op.record 7) ∅ "T" contractService 0 0 0 0
      true true true).1.2.2.2).mpr rfl⟩

/-- Claim C9: every service call site catches a thrown exception locally
and converts it into the error-shaped envelope — `error` set to the
message, `result` absent, timestamp present — instead of letting it
propagate (the operations are total functions into envelopes). -/
theorem C9_exception_containment : ∀ (s : VendorQualificationService) (ts m : String)
    (score threshold salt v : Int) (a b c : Bool),
    (VendorQualificationService.verifyQualificationAttempt s score threshold salt
        = Except.error m →
      VendorQualificationService.verifyQualification s score threshold salt ts
        = { method := "verifyQualification", result := none, error := some m,
            timestamp := ts, contractAddress := s.contractAddress })
    ∧ (VendorQualificationService.checkComplianceAttempt s a b c = Except.error m →
      VendorQualificationService.checkCompliance s a b c ts
        = { method := "checkCompliance", result := none, error := some m,
            timestamp := ts, contractAddress := s.contractAddress })
    ∧ (VendorQualificationService.recordQualificationAttempt s v = Except.error m →
      VendorQualificationService.recordQualification s v ts
        = { method := "recordQualification", result := none, error := some m,
            timestamp := ts, contractAddress := s.contractAddress })
    ∧ (VendorQualificationService.isVendorQualifiedAttempt s v = Except.error m →
      VendorQualificationService.isVendorQualified s v ts
        = { method := "isVendorQualified", result := none, error := some m,
            timestamp := ts, contractAddress := s.contractAddress }) := by
  intro s ts m score threshold salt v a b c
  refine ⟨fun h => ?_, fun h => ?_, fun h => ?_, fun h => ?_⟩
  · simp [VendorQualificationService.verifyQualification, h]
  · simp [VendorQualificationService.checkCompliance, h]
  · simp [VendorQualificationService.recordQualification, h]
  · simp [VendorQualificationService.isVendorQualified, h]

/-- Witness for C9: the unbound singleton's attempt throws, and the call
returns the error-shaped envelope. -/
theorem C9_witness :
    VendorQualificationService.verifyQualification contractService 85 80 12345 "T"
      = { method := "verifyQualification", result := none,
          error := some "Contract instance not attached. Call bindContractInstance() with a real Midnight contract.",
          timestamp := "T", contractAddress := CONTRACT_CONFIG_ADDRESS } :=
  (C9_exception_containment contractService "T"
    "Contract instance not attached. Call bindContractInstance() with a real Midnight contract."
    85 80 12345 0 true true true).1 rfl

/-- Claim C10: on the exported singleton, which has no contract instance
bound, every one of the four service operations returns the error
envelope with the not-attached message and no result. -/
theorem C10_unbound_singleton_errors : ∀ (ts : String)
    (score threshold salt v : Int) (a b c : Bool),
    VendorQualificationService.verifyQualification contractService score threshold salt ts
      = { method := "verifyQualification", result := none,
          error := some "Contract instance not attached. Call bindContractInstance() with a real Midnight contract.",
          timestamp := ts, contractAddress := CONTRACT_CONFIG_ADDRESS }
    ∧ VendorQualificationService.checkCompliance contractService a b c ts
      = { method := "checkCompliance", result := none,
          error := some "Contract instance not attached. Call bindContractInstance() with a real Midnight contract.",
          timestamp := ts, contractAddress := CONTRACT_CONFIG_ADDRESS }
    ∧ VendorQualificationService.recordQualification contractService v ts
      = { method := "recordQualification", result := none,
          error := some "Contract instance not attached. Call bindContractInstance() with a real Midnight contract.",
          timestamp := ts, contractAddress := CONTRACT_CONFIG_ADDRESS }
    ∧ VendorQualificationService.isVendorQualified contractService v ts
      = { method := "isVendorQualified", result := none,
          error := some "Contract instance not attached. Call bindContractInstance() with a real Midnight contract.",
          timestamp := ts, contractAddress := CONTRACT_CONFIG_ADDRESS } := by
  intros
  exact ⟨rfl, rfl, rfl, rfl⟩
